import Mathlib

/-!
Verification of the go-oidc-middleware core (`oidc.go`): the token
policy gates of the validator, the signature-algorithm resolver, the
required-claims matcher, the `ParseToken` pipeline with its unkeyed-mode
signature-probing retry, and the batched refresh protocol of the key manager.

Machine integers do not matter here: Go `time.Duration` and `time.Time`
are modelled as `Int` nanosecond counts (no arithmetic in the source can
overflow the 64-bit range for the inputs the claims quantify over, and
the comparisons are order comparisons, not wrapping arithmetic).
Errors are modelled as their message strings; the sentinel
`errSignatureVerification` is created once and compared by identity via
`errors.Is`, which on the codomain of `getAndValidateTokenFromString`
coincides with message equality (every error whose message contains the
sentinel text is replaced by the sentinel itself).
-/

namespace Oidc

/-- Is `pat` a leading segment of `s` (on character lists)? -/
def charsLeads : List Char → List Char → Bool
  | [], _ => true
  | _ :: _, [] => false
  | p :: ps, c :: cs => p == c && charsLeads ps cs

/-- Does `pat` occur contiguously inside `s` (on character lists)? -/
def charsContains : List Char → List Char → Bool
  | [], pat => pat.isEmpty
  | c :: rest, pat => charsLeads pat (c :: rest) || charsContains rest pat

/-- Substring test, modelling Go `strings.Contains s pat` (true iff `pat`
occurs contiguously in `s`; always true for an empty `pat`). -/
def strContains (s pat : String) : Bool :=
  charsContains s.data pat.data

/-- The external jwx-library acceptor `jwa.SignatureAlgorithm.Accept`: the set of
signature-algorithm names it accepts. -/
def knownSignatureAlgorithms : List String :=
  ["ES256", "ES256K", "ES384", "ES512", "EdDSA", "HS256", "HS384",
   "HS512", "none", "PS256", "PS384", "PS512", "RS256", "RS384", "RS512"]

/-- Source `getSignatureAlgorithmFromString` (oidc.go): `alg.Accept s`, error when
`s` is not a known signature algorithm. -/
def getSignatureAlgorithmFromString (s : String) : Except String String :=
  if s ∈ knownSignatureAlgorithms then .ok s
  else .error ("invalid value for SignatureAlgorithm: " ++ s)

/-- Source `getSignatureAlgorithm` (oidc.go): declared algorithm wins, then the
fallback, then a default by key type (`RSA`, `EC`), else an error. -/
def getSignatureAlgorithm (kty : String) (keyAlg : String)
    (fallbackAlg : String) : Except String String :=
  if keyAlg ≠ "" then getSignatureAlgorithmFromString keyAlg
  else if fallbackAlg ≠ "" then .ok fallbackAlg
  else if kty = "RSA" then .ok "RS256"
  else if kty = "EC" then .ok "ES256"
  else .error ("unable to get signature algorithm with kty=" ++ kty)

/-- Source `isTokenIssuerValid` (oidc.go). -/
def isTokenIssuerValid (requiredIssuer : String) (tokenIssuer : String) : Bool :=
  if requiredIssuer = "" then false
  else tokenIssuer = requiredIssuer

/-- Source `isTokenAudienceValid` (oidc.go). -/
def isTokenAudienceValid (requiredAudience : String) (audiences : List String) : Bool :=
  if requiredAudience = "" then true
  else audiences.any (fun audience => audience = requiredAudience)

/-- Source `isTokenExpirationValid` (oidc.go): accept iff
`expiration + allowedDrift` is strictly after `now`. Times in
nanoseconds; `Round 0` only strips the Go monotonic-clock reading and does
not change the wall-clock instant. -/
def isTokenExpirationValid (expiration : Int) (allowedDrift : Int) (now : Int) : Bool :=
  expiration + allowedDrift > now

/-- Nanoseconds per second (`time.Second`). -/
def nsPerSecond : Int := 1000000000

/-- The `allowedTokenDrift` defaulting in `NewHandler` (oidc.go): a zero
configured drift becomes 10 seconds. -/
def defaultedAllowedTokenDrift (d : Int) : Int :=
  if d = 0 then 10 * nsPerSecond else d

/-- A claim value after conversion to a `cty` value: scalars, sequences
and mappings (the shapes `RequiredClaims` documents). -/
inductive CtyVal where
  | str : String → CtyVal
  | num : Int → CtyVal
  | boolean : Bool → CtyVal
  | seq : List CtyVal → CtyVal
  | map : List (String × CtyVal) → CtyVal

mutual

/-- Modelled from the spec: the structural-containment matcher
`isCtyValueValid` lives in `cty.go`, which is not among the given source
files; §4.4 defines it as scalar equality, sequence containment (every
required element matched by some observed element), and recursive
mapping containment on shared keys, with any type mismatch failing. -/
def ctyMatch : CtyVal → CtyVal → Bool
  | .str a, .str b => a == b
  | .num a, .num b => a == b
  | .boolean a, .boolean b => a == b
  | .seq req, .seq obs => ctySeqMatch req obs
  | .map req, .map obs => ctyMapMatch req obs
  | _, _ => false

/-- Modelled from the spec: does some element of the observed sequence
match the required element. -/
def ctyAnyMatch : CtyVal → List CtyVal → Bool
  | _, [] => false
  | r, o :: os => ctyMatch r o || ctyAnyMatch r os

/-- Modelled from the spec: every required element has a witness in the
observed sequence. -/
def ctySeqMatch : List CtyVal → List CtyVal → Bool
  | [], _ => true
  | r :: rs, obs => ctyAnyMatch r obs && ctySeqMatch rs obs

/-- Modelled from the spec: look the key up in the observed mapping and
match the required value against the entry found (first occurrence). -/
def ctyLookupMatch : CtyVal → String → List (String × CtyVal) → Bool
  | _, _, [] => false
  | v, k, (k2, v2) :: rest =>
      if k == k2 then ctyMatch v v2 else ctyLookupMatch v k rest

/-- Modelled from the spec: every required mapping entry is present and
matches recursively. -/
def ctyMapMatch : List (String × CtyVal) → List (String × CtyVal) → Bool
  | [], _ => true
  | (k, v) :: rs, obs => ctyLookupMatch v k obs && ctyMapMatch rs obs

end

/-- The two error shapes `isRequiredClaimsValid` produces, keyed by the
claim name each message carries. -/
inductive ClaimsError where
  | missingClaim : String → ClaimsError
  | claimNotValid : String → ClaimsError
  deriving DecidableEq, Repr

/-- The claim name an `isRequiredClaimsValid` error message carries. -/
def claimsErrorKey : ClaimsError → String
  | .missingClaim k => k
  | .claimNotValid k => k

/-- Source `isRequiredClaimsValid` (oidc.go): iterate over the required claims;
a key absent from the token claims yields the
"token does not have the claim" error naming it; a present key whose
value fails structural containment yields the "claim not valid" error
naming it. The Go `range` order over the map is modelled as list order;
the `getCtyValues` conversion (cty.go, not among the given source files)
is modelled as already performed, so conversion errors do not arise. -/
def isRequiredClaimsValid (requiredClaims tokenClaims : List (String × CtyVal)) :
    Except ClaimsError Unit :=
  match requiredClaims with
  | [] => .ok ()
  | (requiredKey, requiredValue) :: rest =>
    match tokenClaims.lookup requiredKey with
    | none => .error (.missingClaim requiredKey)
    | some tokenValue =>
      if ctyMatch requiredValue tokenValue then
        isRequiredClaimsValid rest tokenClaims
      else .error (.claimNotValid requiredKey)

/-- A required entry is offending for the observed claims when its key is
absent or its value fails the containment check. -/
def claimOffending (tokenClaims : List (String × CtyVal))
    (kv : String × CtyVal) : Prop :=
  match tokenClaims.lookup kv.1 with
  | none => True
  | some tv => ctyMatch kv.2 tv = false

/-- The message text each `isRequiredClaimsValid` error carries. -/
def claimsErrorMessage : ClaimsError → String
  | .missingClaim k => "token does not have the claim: " ++ k
  | .claimNotValid k => "claim " ++ k ++ " not valid"

/-- A JWK as the validator reads it: key type (`kty`) and declared
algorithm (`alg`, empty when the JWKS entry carries none). -/
structure Key where
  keyType : String
  keyAlg : String
  deriving DecidableEq, Repr

/-- A parsed and signature-verified token: the claims the policy gates
read (`exp` as a nanosecond instant). -/
structure Token where
  issuer : String
  audience : List String
  expiration : Int
  claims : List (String × CtyVal)

/-- The `handler` struct (oidc.go): the frozen policy fields plus the
lazily installed key manager, opaque to the validator and modelled as an
identifier; the HTTP client likewise. -/
structure Handler where
  issuer : String
  discoveryUri : String
  jwksUri : String
  jwksFetchTimeout : Int
  jwksRateLimit : Nat
  fallbackSignatureAlgorithm : String
  allowedTokenDrift : Int
  requiredAudience : String
  requiredTokenType : String
  requiredClaims : Option (List (String × CtyVal))
  disableKeyID : Bool
  httpClient : Nat
  keyHandler : Option Nat

/-- The collaborators one `ParseToken` call reads, fixed for that call:
the wall clock, the discovery and key-manager-construction results used
by the lazy load, the header fields extracted from the token string, the
lookup and forced-refresh results of the key manager, and `jwt.ParseString`
with verification by a given key and algorithm. -/
structure World where
  now : Int
  discoveredJwksUri : Except String String
  newKeyHandlerResult : Except String Nat
  headerTokenType : Except String String
  headerKeyID : Except String String
  getKey : String → Except String Key
  refreshKeyResult : Except String Key
  jwtParse : Key → String → Except String Token
  tokenAsMapOk : Bool

/-- The message of the sentinel `errSignatureVerification` (oidc.go). -/
def errSignatureVerificationMsg : String := "failed to verify signature"

/-- Source `getAndValidateTokenFromString` (oidc.go): parse-and-verify the token
string with the given key and algorithm; any error whose message
contains the sentinel text is replaced by the sentinel itself. -/
def getAndValidateTokenFromString (w : World) (key : Key) (alg : String) :
    Except String Token :=
  match w.jwtParse key alg with
  | .ok token => .ok token
  | .error e =>
    if strContains e errSignatureVerificationMsg then
      .error errSignatureVerificationMsg
    else .error e

/-- Source `isTokenTypeValid` (oidc.go), with the header extraction from the
token string abstracted into the world. -/
def isTokenTypeValid (requiredTokenType : String) (w : World) : Bool :=
  if requiredTokenType = "" then true
  else
    match w.headerTokenType with
    | .error _ => false
    | .ok tokenType => tokenType = requiredTokenType

/-- Second half of `loadJwks` (oidc.go): construct the key manager and
install it on the handler. Go mutates the handler in place, so the
handler mutated so far is returned even when this step fails. -/
def loadJwksStep2 (h : Handler) (w : World) : Handler × Except String Unit :=
  match w.newKeyHandlerResult with
  | .error e => (h, .error ("unable to initialize keyHandler: " ++ e))
  | .ok khId => ({ h with keyHandler := some khId }, .ok ())

/-- Source `loadJwks` (oidc.go): resolve the JWKS URI via discovery when it is
unset, then build and install the key manager. -/
def loadJwks (h : Handler) (w : World) : Handler × Except String Unit :=
  if h.jwksUri = "" then
    match w.discoveredJwksUri with
    | .error e =>
        (h, .error ("unable to fetch jwksUri from discoveryUri (" ++
          h.discoveryUri ++ "): " ++ e))
    | .ok jwksUri => loadJwksStep2 { h with jwksUri := jwksUri } w
  else loadJwksStep2 h w

/-- Lines 644-664 of `ParseToken` (oidc.go): the first parse-and-verify,
and — only when the error is the signature-verification sentinel and the
handler is in unkeyed mode — one forced refresh via
`waitForUpdateKeySetAndGetKey`, re-resolution of the algorithm from the
metadata of the original key (exactly as the source does), and one retry
against the refreshed key. Returns the outcome, the number of forced
refreshes performed, and each verification attempt as the
(key, algorithm) pair it used. -/
def verifyWithRetry (h : Handler) (w : World) (key : Key) (alg : String) :
    Except String Token × Nat × List (Key × String) :=
  match getAndValidateTokenFromString w key alg with
  | .ok token => (.ok token, 0, [(key, alg)])
  | .error e =>
    if h.disableKeyID && (e == errSignatureVerificationMsg) then
      match w.refreshKeyResult with
      | .error e2 => (.error e2, 1, [(key, alg)])
      | .ok updatedKey =>
        match getSignatureAlgorithm key.keyType key.keyAlg
            h.fallbackSignatureAlgorithm with
        | .error e3 => (.error e3, 1, [(key, alg)])
        | .ok alg2 =>
          match getAndValidateTokenFromString w updatedKey alg2 with
          | .error e4 => (.error e4, 1, [(key, alg), (updatedKey, alg2)])
          | .ok token => (.ok token, 1, [(key, alg), (updatedKey, alg2)])
    else (.error e, 0, [(key, alg)])

/-- Lines 666-693 of `ParseToken` (oidc.go): the expiration, issuer,
audience and required-claims gates, evaluated in that order,
short-circuiting. -/
def applyGates (h : Handler) (w : World) (token : Token) : Except String Token :=
  if !(isTokenExpirationValid token.expiration h.allowedTokenDrift w.now) then
    .error "token has expired"
  else if !(isTokenIssuerValid h.issuer token.issuer) then
    .error ("required issuer " ++ h.issuer ++ " was not found")
  else if !(isTokenAudienceValid h.requiredAudience token.audience) then
    .error ("required audience " ++ h.requiredAudience ++ " was not found")
  else
    match h.requiredClaims with
    | none => .ok token
    | some requiredClaims =>
      if !w.tokenAsMapOk then .error "unable to get token claims"
      else
        match isRequiredClaimsValid requiredClaims token.claims with
        | .error e =>
            .error ("unable to validate required claims: " ++ claimsErrorMessage e)
        | .ok _ => .ok token

/-- Source `ParseToken` (oidc.go) once the key manager is installed: token-type
gate, key-id extraction (keyed mode only), key lookup, algorithm
resolution, verification with the unkeyed-mode retry, then the policy
gates. -/
def parseTokenLoaded (h : Handler) (w : World) :
    Except String Token × Nat × List (Key × String) :=
  if !(isTokenTypeValid h.requiredTokenType w) then
    (.error ("token type " ++ h.requiredTokenType ++ " required"), 0, [])
  else
    match (if h.disableKeyID then Except.ok "" else w.headerKeyID) with
    | .error e => (.error e, 0, [])
    | .ok keyID =>
      match w.getKey keyID with
      | .error e => (.error ("unable to get public key: " ++ e), 0, [])
      | .ok key =>
        match getSignatureAlgorithm key.keyType key.keyAlg
            h.fallbackSignatureAlgorithm with
        | .error e => (.error e, 0, [])
        | .ok alg =>
          match verifyWithRetry h w key alg with
          | (.error e, refreshes, calls) => (.error e, refreshes, calls)
          | (.ok token, refreshes, calls) => (applyGates h w token, refreshes, calls)

/-- Everything observable about one `ParseToken` call: its result, the
handler state afterwards, the number of forced refreshes it performed,
and its verification attempts. -/
structure ParseOutcome where
  result : Except String Token
  handler : Handler
  refreshCalls : Nat
  verifyCalls : List (Key × String)

/-- Source `ParseToken` (oidc.go): lazy-load the key manager when absent (the
only mutation of the handler), then run the loaded pipeline. -/
def parseToken (h : Handler) (w : World) : ParseOutcome :=
  match h.keyHandler with
  | some _ =>
    match parseTokenLoaded h w with
    | (r, refreshes, calls) => ⟨r, h, refreshes, calls⟩
  | none =>
    match loadJwks h w with
    | (h2, .error e) => ⟨.error ("unable to load jwks: " ++ e), h2, 0, []⟩
    | (h2, .ok _) =>
      match parseTokenLoaded h2 w with
      | (r, refreshes, calls) => ⟨r, h2, refreshes, calls⟩

/-- Modelled from the spec: the state of the key manager. The `keyHandler`
implementation (key.go) is not among the given source files — only its
tests and callers are — so §3 and §4.3 of the spec define it: the
installed key set, the update counter, the unkeyed-mode flag, the FIFO
queue of waiting forced-refresh requests (callers as numeric ids), the
responses attached to served requests, and a count of fetches performed
(for stating the coalescing property). -/
structure KeyManagerState where
  keySet : List Key
  keyUpdateCount : Nat
  fetchCount : Nat
  disableKeyID : Bool
  pending : List Nat
  responses : List (Nat × Except String (List Key))

/-- Modelled from the spec: a `waitForUpdateKeySetAndGetKeySet` call
enqueues one request at the tail of the FIFO queue of the refresher and
blocks; all requests arriving before the refresher starts its fetch form
one batch (§4.3 batching rule). -/
def enqueueWait (s : KeyManagerState) (id : Nat) : KeyManagerState :=
  { s with pending := s.pending ++ [id] }

/-- Modelled from the spec: §4.3 steps 3-5 applied to one fetch result —
install the fetched key set and increment the counter on success; a
failed fetch, or in unkeyed mode a fetched set of ≠ 1 keys, is an error
and the previous key set and counter stay in force. -/
def refreshInstall (s : KeyManagerState) (fetched : Except String (List Key)) :
    KeyManagerState × Except String (List Key) :=
  match fetched with
  | .error e => (s, .error e)
  | .ok ks =>
    if s.disableKeyID && (ks.length != 1) then
      (s, .error "keyHandler received more than one key")
    else
      ({ s with keySet := ks, keyUpdateCount := s.keyUpdateCount + 1 }, .ok ks)

/-- Modelled from the spec: one refresher round — take the entire
pending queue as the batch, perform exactly one fetch (with outcome
`fetched`), and attach the same response to every request of the
batch. -/
def refresherStep (s : KeyManagerState) (fetched : Except String (List Key)) :
    KeyManagerState :=
  match refreshInstall s fetched with
  | (s2, resp) =>
    { s2 with
        fetchCount := s2.fetchCount + 1
        pending := []
        responses := s2.responses ++ s.pending.map (fun id => (id, resp)) }

/-- Concrete key carried by the examples: an RSA key declaring RS256. -/
def exKeyOld : Key := ⟨"RSA", "RS256"⟩

/-- Concrete key carried by the examples: an RSA key declaring RS512,
as fetched after a rotation. -/
def exKeyNew : Key := ⟨"RSA", "RS512"⟩

/-- Concrete token used by the example worlds: passes every policy gate
of `exHandlerUnkeyed` once verification succeeds. -/
def exToken : Token :=
  ⟨"https://issuer.example", [], 100 * nsPerSecond, []⟩

/-- Concrete unkeyed-mode handler with an installed key manager. -/
def exHandlerUnkeyed : Handler :=
  ⟨"https://issuer.example", "https://issuer.example/.well-known/openid-configuration",
   "https://issuer.example/jwks", 5 * nsPerSecond, 1, "", 10 * nsPerSecond,
   "", "", none, true, 0, some 0⟩

/-- Concrete world in which every verification attempt fails with a
signature-verification error. -/
def exWorldFail : World :=
  ⟨0, .ok "https://issuer.example/jwks", .ok 0, .ok "JWT",
   .error "token header does not contain key id (kid)",
   fun _ => .ok exKeyOld, .ok exKeyNew,
   fun _ _ => .error "failed to verify signature: boom", true⟩

/-- Concrete world after a key rotation: verification succeeds only
against the newly fetched key with its declared algorithm RS512,
and fails with a signature-verification error otherwise. -/
def exWorldRotated : World :=
  ⟨0, .ok "https://issuer.example/jwks", .ok 0, .ok "JWT",
   .error "token header does not contain key id (kid)",
   fun _ => .ok exKeyOld, .ok exKeyNew,
   fun key alg =>
     if key == exKeyNew && alg == "RS512" then .ok exToken
     else .error "failed to verify signature: boom", true⟩

end Oidc

namespace Oidc

/-- C5: the issuer gate accepts a token iff the configured issuer is
non-empty and the token `iss` claim equals it exactly; an empty configured
issuer rejects every token, even one whose own `iss` is empty. -/
theorem issuer_gate_iff (requiredIssuer tokenIssuer : String) :
    (isTokenIssuerValid requiredIssuer tokenIssuer = true ↔
      requiredIssuer ≠ "" ∧ tokenIssuer = requiredIssuer) ∧
    isTokenIssuerValid "" tokenIssuer = false := by
  constructor
  · unfold isTokenIssuerValid
    by_cases h : requiredIssuer = "" <;> simp [h]
  · simp [isTokenIssuerValid]

/-- C7: the expiration gate rejects exactly when
`exp + allowedTokenDrift ≤ now` (the boundary instant is rejected) and
accepts exactly when `exp + allowedTokenDrift > now`; `NewHandler` turns
a configured drift of zero into 10 seconds. -/
theorem expiration_gate_iff (expiration allowedDrift now : Int) :
    (isTokenExpirationValid expiration allowedDrift now = false ↔
      expiration + allowedDrift ≤ now) ∧
    (isTokenExpirationValid expiration allowedDrift now = true ↔
      expiration + allowedDrift > now) ∧
    defaultedAllowedTokenDrift 0 = 10 * nsPerSecond := by
  refine ⟨?_, ?_, by simp [defaultedAllowedTokenDrift]⟩
  · simp only [isTokenExpirationValid, gt_iff_lt, decide_eq_false_iff_not, not_lt]
  · simp only [isTokenExpirationValid, gt_iff_lt, decide_eq_true_eq]

/-- C6: the signature-algorithm resolver: a non-empty declared algorithm
is parsed and returned (error when unknown, whatever the fallback is);
otherwise a non-empty fallback is returned; otherwise `RS256` for RSA
keys, `ES256` for EC keys, and an error for any other key type. -/
theorem signature_algorithm_resolution (kty keyAlg fallbackAlg : String) :
    (keyAlg ≠ "" → keyAlg ∈ knownSignatureAlgorithms →
      getSignatureAlgorithm kty keyAlg fallbackAlg = .ok keyAlg) ∧
    (keyAlg ≠ "" → keyAlg ∉ knownSignatureAlgorithms →
      ∀ fallbackAlg2 : String, ∃ e : String,
        getSignatureAlgorithm kty keyAlg fallbackAlg2 = .error e) ∧
    (keyAlg = "" → fallbackAlg ≠ "" →
      getSignatureAlgorithm kty keyAlg fallbackAlg = .ok fallbackAlg) ∧
    (keyAlg = "" → fallbackAlg = "" →
      (kty = "RSA" → getSignatureAlgorithm kty keyAlg fallbackAlg = .ok "RS256") ∧
      (kty = "EC" → getSignatureAlgorithm kty keyAlg fallbackAlg = .ok "ES256") ∧
      (kty ≠ "RSA" → kty ≠ "EC" → ∃ e : String,
        getSignatureAlgorithm kty keyAlg fallbackAlg = .error e)) := by
  refine ⟨?_, ?_, ?_, ?_⟩
  · intro hne hknown
    simp [getSignatureAlgorithm, hne, getSignatureAlgorithmFromString, hknown]
  · intro hne hunknown fallbackAlg2
    exact ⟨"invalid value for SignatureAlgorithm: " ++ keyAlg,
      by simp [getSignatureAlgorithm, hne, getSignatureAlgorithmFromString, hunknown]⟩
  · intro he hf
    simp [getSignatureAlgorithm, he, hf]
  · intro he hf
    refine ⟨?_, ?_, ?_⟩
    · intro hr; simp [getSignatureAlgorithm, he, hf, hr]
    · intro hr; simp [getSignatureAlgorithm, he, hf, hr]
    · intro hr hc
      exact ⟨"unable to get signature algorithm with kty=" ++ kty,
        by simp [getSignatureAlgorithm, he, hf, hr, hc]⟩

lemma isRequiredClaimsValid_ok_iff (required observed : List (String × CtyVal)) :
    isRequiredClaimsValid required observed = .ok () ↔
      ∀ kv ∈ required, ∃ tv, observed.lookup kv.1 = some tv ∧
        ctyMatch kv.2 tv = true := by
  induction required with
  | nil => simp [isRequiredClaimsValid]
  | cons kv rest ih =>
    obtain ⟨k, v⟩ := kv
    rw [isRequiredClaimsValid]
    cases hlook : observed.lookup k with
    | none =>
      simp only [List.mem_cons, forall_eq_or_imp, hlook]
      constructor
      · intro h; exact absurd h (by simp)
      · rintro ⟨⟨tv, htv, -⟩, -⟩; exact absurd htv (by simp)
    | some tv =>
      by_cases hm : ctyMatch v tv = true
      · simp only [hm, if_true, ih, List.mem_cons, forall_eq_or_imp, hlook]
        constructor
        · intro h; exact ⟨⟨tv, rfl, hm⟩, h⟩
        · rintro ⟨-, h⟩; exact h
      · simp only [hm, if_false, List.mem_cons, forall_eq_or_imp, hlook]
        constructor
        · intro h; exact absurd h (by simp)
        · rintro ⟨⟨tv2, htv2, hm2⟩, -⟩
          obtain rfl : tv = tv2 := Option.some.inj htv2
          exact absurd hm2 hm

lemma isRequiredClaimsValid_error_offending (required observed : List (String × CtyVal))
    (e : ClaimsError) (herr : isRequiredClaimsValid required observed = .error e) :
    ∃ kv ∈ required, claimsErrorKey e = kv.1 ∧ claimOffending observed kv := by
  induction required with
  | nil => simp [isRequiredClaimsValid] at herr
  | cons kv rest ih =>
    obtain ⟨k, v⟩ := kv
    rw [isRequiredClaimsValid] at herr
    cases hlook : observed.lookup k with
    | none =>
      rw [hlook] at herr
      cases herr
      exact ⟨(k, v), by simp, rfl, by simp [claimOffending, hlook]⟩
    | some tv =>
      rw [hlook] at herr
      have herr2 : (if ctyMatch v tv = true then isRequiredClaimsValid rest observed
          else Except.error (ClaimsError.claimNotValid k)) = Except.error e := herr
      by_cases hm : ctyMatch v tv = true
      · rw [if_pos hm] at herr2
        obtain ⟨kv2, hmem, hkey, hoff⟩ := ih herr2
        exact ⟨kv2, List.mem_cons_of_mem _ hmem, hkey, hoff⟩
      · rw [if_neg hm] at herr2
        cases herr2
        refine ⟨(k, v), by simp, rfl, ?_⟩
        simp only [claimOffending, hlook]
        exact Bool.eq_false_iff.mpr hm

/-- Witness for C6 at concrete inputs. -/
theorem signature_algorithm_resolution_witness :
    ("RS384" : String) ≠ "" ∧ ("RS384" : String) ∈ knownSignatureAlgorithms ∧
    getSignatureAlgorithm "RSA" "RS384" "ES256" = .ok "RS384" :=
  ⟨by decide, by decide,
    (signature_algorithm_resolution "RSA" "RS384" "ES256").1
      (by decide) (by decide)⟩

/-- C8: the required-claims check errs, naming an offending key, whenever
some required key is absent from the observed claims; it succeeds exactly
when every required key is present and its observed value structurally
contains the required value. -/
theorem required_claims_check (required observed : List (String × CtyVal)) :
    ((∃ kv ∈ required, observed.lookup kv.1 = none) →
      ∃ e : ClaimsError, isRequiredClaimsValid required observed = .error e ∧
        ∃ kv ∈ required, claimsErrorKey e = kv.1 ∧ claimOffending observed kv) ∧
    (isRequiredClaimsValid required observed = .ok () ↔
      ∀ kv ∈ required, ∃ tv, observed.lookup kv.1 = some tv ∧
        ctyMatch kv.2 tv = true) := by
  refine ⟨?_, isRequiredClaimsValid_ok_iff required observed⟩
  rintro ⟨kv, hmem, hnone⟩
  cases hres : isRequiredClaimsValid required observed with
  | ok u =>
    cases u
    obtain ⟨tv, htv, -⟩ :=
      (isRequiredClaimsValid_ok_iff required observed).mp hres kv hmem
    rw [htv] at hnone
    cases hnone
  | error e =>
    exact ⟨e, rfl, isRequiredClaimsValid_error_offending required observed e hres⟩

lemma verifyWithRetry_sig_failure_unkeyed (h : Handler) (w : World)
    (key : Key) (alg : String)
    (hdis : h.disableKeyID = true)
    (halg : getSignatureAlgorithm key.keyType key.keyAlg
      h.fallbackSignatureAlgorithm = .ok alg)
    (hfail : getAndValidateTokenFromString w key alg =
      .error errSignatureVerificationMsg) :
    verifyWithRetry h w key alg =
      match w.refreshKeyResult with
      | .error e2 => (.error e2, 1, [(key, alg)])
      | .ok k2 =>
        match getAndValidateTokenFromString w k2 alg with
        | .error e4 => (.error e4, 1, [(key, alg), (k2, alg)])
        | .ok token => (.ok token, 1, [(key, alg), (k2, alg)]) := by
  rw [verifyWithRetry, hfail]
  simp only [hdis, beq_self_eq_true, Bool.and_self, if_true, halg]

lemma verifyWithRetry_sig_failure_keyed (h : Handler) (w : World)
    (key : Key) (alg : String) (e : String)
    (hdis : h.disableKeyID = false)
    (hfail : getAndValidateTokenFromString w key alg = .error e) :
    verifyWithRetry h w key alg = (.error e, 0, [(key, alg)]) := by
  rw [verifyWithRetry, hfail]
  simp only [hdis, Bool.false_and, Bool.false_eq_true, if_false]

lemma verifyWithRetry_not_sentinel (h : Handler) (w : World)
    (key : Key) (alg : String) (e : String)
    (hnot : e ≠ errSignatureVerificationMsg)
    (hfail : getAndValidateTokenFromString w key alg = .error e) :
    verifyWithRetry h w key alg = (.error e, 0, [(key, alg)]) := by
  rw [verifyWithRetry, hfail]
  have hbeq : (e == errSignatureVerificationMsg) = false :=
    beq_eq_false_iff_ne.mpr hnot
  simp only [hbeq, Bool.and_false, Bool.false_eq_true, if_false]

lemma verifyWithRetry_first_ok (h : Handler) (w : World)
    (key : Key) (alg : String) (token : Token)
    (hok : getAndValidateTokenFromString w key alg = .ok token) :
    verifyWithRetry h w key alg = (.ok token, 0, [(key, alg)]) := by
  rw [verifyWithRetry, hok]

lemma parseToken_verify_error (h : Handler) (w : World) (kh : Nat)
    (kid : String) (key : Key) (alg : String) (e : String) (n : Nat)
    (c : List (Key × String))
    (hkh : h.keyHandler = some kh)
    (htype : isTokenTypeValid h.requiredTokenType w = true)
    (hkid : (if h.disableKeyID then Except.ok "" else w.headerKeyID) = .ok kid)
    (hkey : w.getKey kid = .ok key)
    (halg : getSignatureAlgorithm key.keyType key.keyAlg
      h.fallbackSignatureAlgorithm = .ok alg)
    (hvw : verifyWithRetry h w key alg = (.error e, n, c)) :
    parseToken h w = ⟨.error e, h, n, c⟩ := by
  simp only [parseToken, hkh, parseTokenLoaded, htype, Bool.not_true,
    Bool.false_eq_true, if_false, hkid, hkey, halg, hvw]

lemma parseToken_verify_ok (h : Handler) (w : World) (kh : Nat)
    (kid : String) (key : Key) (alg : String) (token : Token) (n : Nat)
    (c : List (Key × String))
    (hkh : h.keyHandler = some kh)
    (htype : isTokenTypeValid h.requiredTokenType w = true)
    (hkid : (if h.disableKeyID then Except.ok "" else w.headerKeyID) = .ok kid)
    (hkey : w.getKey kid = .ok key)
    (halg : getSignatureAlgorithm key.keyType key.keyAlg
      h.fallbackSignatureAlgorithm = .ok alg)
    (hvw : verifyWithRetry h w key alg = (.ok token, n, c)) :
    parseToken h w = ⟨applyGates h w token, h, n, c⟩ := by
  simp only [parseToken, hkh, parseTokenLoaded, htype, Bool.not_true,
    Bool.false_eq_true, if_false, hkid, hkey, halg, hvw]

/-- Witness for C8: a required claim `azp` absent from the observed
claims yields the error naming it. -/
theorem required_claims_check_witness :
    ∃ e : ClaimsError,
      isRequiredClaimsValid [("azp", CtyVal.str "c")] [("aud", CtyVal.str "a")]
        = .error e ∧
      ∃ kv ∈ [("azp", CtyVal.str "c")], claimsErrorKey e = kv.1 ∧
        claimOffending [("aud", CtyVal.str "a")] kv :=
  (required_claims_check [("azp", CtyVal.str "c")] [("aud", CtyVal.str "a")]).1
    ⟨("azp", CtyVal.str "c"), by simp, by simp [List.lookup]⟩

/-- C1: when the first parse-and-verify fails with the
signature-verification sentinel, `ParseToken` in unkeyed mode performs
exactly one forced refresh via `waitForUpdateKeySetAndGetKey` and retries
verification exactly once against the refreshed key, returning the
error of the retry with no further refresh when the retry also fails; in
keyed mode the failure is returned immediately, with no refresh and no
retry. -/
theorem parse_token_sig_failure_policy (h : Handler) (w : World) (kh : Nat)
    (kid : String) (key : Key) (alg : String)
    (hkh : h.keyHandler = some kh)
    (htype : isTokenTypeValid h.requiredTokenType w = true)
    (hkid : (if h.disableKeyID then Except.ok "" else w.headerKeyID) = .ok kid)
    (hkey : w.getKey kid = .ok key)
    (halg : getSignatureAlgorithm key.keyType key.keyAlg
      h.fallbackSignatureAlgorithm = .ok alg)
    (hfail : getAndValidateTokenFromString w key alg =
      .error errSignatureVerificationMsg) :
    (h.disableKeyID = true →
      (parseToken h w).refreshCalls = 1 ∧
      (∀ e2, w.refreshKeyResult = .error e2 →
        (parseToken h w).result = .error e2 ∧
        (parseToken h w).verifyCalls = [(key, alg)]) ∧
      (∀ k2, w.refreshKeyResult = .ok k2 →
        (parseToken h w).verifyCalls = [(key, alg), (k2, alg)] ∧
        ∀ e4, getAndValidateTokenFromString w k2 alg = .error e4 →
          (parseToken h w).result = .error e4)) ∧
    (h.disableKeyID = false →
      (parseToken h w).result = .error errSignatureVerificationMsg ∧
      (parseToken h w).refreshCalls = 0 ∧
      (parseToken h w).verifyCalls = [(key, alg)]) := by
  constructor
  · intro hdis
    have hvw := verifyWithRetry_sig_failure_unkeyed h w key alg hdis halg hfail
    cases hr : w.refreshKeyResult with
    | error e2 =>
      simp only [hr] at hvw
      have hout := parseToken_verify_error h w kh kid key alg e2 1
        [(key, alg)] hkh htype hkid hkey halg hvw
      refine ⟨by rw [hout], ?_, ?_⟩
      · intro e2b he2b
        cases he2b
        exact ⟨by rw [hout], by rw [hout]⟩
      · intro k2 hk2
        cases hk2
    | ok k2 =>
      simp only [hr] at hvw
      cases hretry : getAndValidateTokenFromString w k2 alg with
      | error e4 =>
        simp only [hretry] at hvw
        have hout := parseToken_verify_error h w kh kid key alg e4 1
          [(key, alg), (k2, alg)] hkh htype hkid hkey halg hvw
        refine ⟨by rw [hout], ?_, ?_⟩
        · intro e2b he2b
          cases he2b
        · intro k2b hk2b
          cases hk2b
          refine ⟨by rw [hout], ?_⟩
          intro e4b he4b
          rw [hretry] at he4b
          cases he4b
          rw [hout]
      | ok token =>
        simp only [hretry] at hvw
        have hout := parseToken_verify_ok h w kh kid key alg token 1
          [(key, alg), (k2, alg)] hkh htype hkid hkey halg hvw
        refine ⟨by rw [hout], ?_, ?_⟩
        · intro e2b he2b
          cases he2b
        · intro k2b hk2b
          cases hk2b
          refine ⟨by rw [hout], ?_⟩
          intro e4b he4b
          rw [hretry] at he4b
          cases he4b
  · intro hdis
    have hvw := verifyWithRetry_sig_failure_keyed h w key alg
      errSignatureVerificationMsg hdis hfail
    have hout := parseToken_verify_error h w kh kid key alg
      errSignatureVerificationMsg 0 [(key, alg)] hkh htype hkid hkey halg hvw
    exact ⟨by rw [hout], by rw [hout], by rw [hout]⟩

/-- Witness for C1: in the concrete unkeyed world where both
verification attempts fail, `ParseToken` refreshes once, retries once
against the refreshed key, and returns the sentinel error. -/
theorem parse_token_sig_failure_policy_witness :
    (parseToken exHandlerUnkeyed exWorldFail).refreshCalls = 1 ∧
    (parseToken exHandlerUnkeyed exWorldFail).verifyCalls =
      [(exKeyOld, "RS256"), (exKeyNew, "RS256")] ∧
    (parseToken exHandlerUnkeyed exWorldFail).result =
      .error errSignatureVerificationMsg := by
  have hmain := parse_token_sig_failure_policy exHandlerUnkeyed exWorldFail 0 ""
    exKeyOld "RS256" rfl rfl rfl rfl (by rfl) (by rfl)
  have hun := hmain.1 rfl
  exact ⟨hun.1, (hun.2.2 exKeyNew rfl).1,
    (hun.2.2 exKeyNew rfl).2 errSignatureVerificationMsg (by rfl)⟩

/-- Counterexample for C2: after the rotation to an RS512 key, the
algorithm resolved from the metadata of the newly fetched key is RS512, yet
the retry verifies with RS256 — the algorithm resolved from the key that
failed — so a token verifiable only under (new key, RS512) is rejected
with the sentinel error. -/
theorem parse_token_retry_new_key_alg_counterexample :
    getSignatureAlgorithm exKeyNew.keyType exKeyNew.keyAlg
      exHandlerUnkeyed.fallbackSignatureAlgorithm = .ok "RS512" ∧
    exWorldRotated.jwtParse exKeyNew "RS512" = .ok exToken ∧
    (parseToken exHandlerUnkeyed exWorldRotated).verifyCalls =
      [(exKeyOld, "RS256"), (exKeyNew, "RS256")] ∧
    (parseToken exHandlerUnkeyed exWorldRotated).result =
      .error errSignatureVerificationMsg :=
  ⟨rfl, rfl, rfl, rfl⟩

/-- C2 (amended): on the unkeyed-mode retry after a forced refresh,
`ParseToken` resolves the signature algorithm from the key that failed
verification, meaning the key type and declared algorithm of the old key, and then
verifies the token against the newly fetched key with that algorithm. -/
theorem parse_token_retry_uses_old_key_alg (h : Handler) (w : World)
    (kh : Nat) (kid : String) (key : Key) (alg : String) (k2 : Key)
    (hkh : h.keyHandler = some kh)
    (htype : isTokenTypeValid h.requiredTokenType w = true)
    (hkid : (if h.disableKeyID then Except.ok "" else w.headerKeyID) = .ok kid)
    (hkey : w.getKey kid = .ok key)
    (halg : getSignatureAlgorithm key.keyType key.keyAlg
      h.fallbackSignatureAlgorithm = .ok alg)
    (hdis : h.disableKeyID = true)
    (hfail : getAndValidateTokenFromString w key alg =
      .error errSignatureVerificationMsg)
    (hrefresh : w.refreshKeyResult = .ok k2) :
    (parseToken h w).verifyCalls = [(key, alg), (k2, alg)] := by
  have hvw := verifyWithRetry_sig_failure_unkeyed h w key alg hdis halg hfail
  simp only [hrefresh] at hvw
  cases hretry : getAndValidateTokenFromString w k2 alg with
  | error e4 =>
    simp only [hretry] at hvw
    rw [parseToken_verify_error h w kh kid key alg e4 1
      [(key, alg), (k2, alg)] hkh htype hkid hkey halg hvw]
  | ok token =>
    simp only [hretry] at hvw
    rw [parseToken_verify_ok h w kh kid key alg token 1
      [(key, alg), (k2, alg)] hkh htype hkid hkey halg hvw]

/-- Witness for the amended C2 at the concrete rotated world. -/
theorem parse_token_retry_uses_old_key_alg_witness :
    (parseToken exHandlerUnkeyed exWorldRotated).verifyCalls =
      [(exKeyOld, "RS256"), (exKeyNew, "RS256")] :=
  parse_token_retry_uses_old_key_alg exHandlerUnkeyed exWorldRotated 0 ""
    exKeyOld "RS256" exKeyNew rfl rfl rfl rfl (by rfl) rfl (by rfl) rfl

/-- C10: `getAndValidateTokenFromString` collapses every underlying
parse error whose message contains the sentinel text to the sentinel
itself, and `ParseToken` performs its forced refresh exactly when the
handler is in unkeyed mode and the verification error is that sentinel;
any other error performs no refresh, and never more than one refresh
happens. -/
theorem parse_token_refresh_sentinel_trigger (h : Handler) (w : World)
    (kh : Nat) (kid : String) (key : Key) (alg : String)
    (hkh : h.keyHandler = some kh)
    (htype : isTokenTypeValid h.requiredTokenType w = true)
    (hkid : (if h.disableKeyID then Except.ok "" else w.headerKeyID) = .ok kid)
    (hkey : w.getKey kid = .ok key)
    (halg : getSignatureAlgorithm key.keyType key.keyAlg
      h.fallbackSignatureAlgorithm = .ok alg) :
    (∀ k2 a m, w.jwtParse k2 a = .error m →
      (strContains m errSignatureVerificationMsg = true ↔
        getAndValidateTokenFromString w k2 a =
          .error errSignatureVerificationMsg)) ∧
    ((parseToken h w).refreshCalls = 1 ↔
      h.disableKeyID = true ∧
      getAndValidateTokenFromString w key alg =
        .error errSignatureVerificationMsg) ∧
    (parseToken h w).refreshCalls ≤ 1 := by
  have hsent : ∀ k2 a m, w.jwtParse k2 a = .error m →
      (strContains m errSignatureVerificationMsg = true ↔
        getAndValidateTokenFromString w k2 a =
          .error errSignatureVerificationMsg) := by
    intro k2 a m hjp
    simp only [getAndValidateTokenFromString, hjp]
    constructor
    · intro hc
      rw [if_pos hc]
    · intro heq
      by_cases hc : strContains m errSignatureVerificationMsg = true
      · exact hc
      · rw [if_neg hc] at heq
        obtain rfl : m = errSignatureVerificationMsg := Except.error.inj heq
        rfl
  refine ⟨hsent, ?_⟩
  cases hfst : getAndValidateTokenFromString w key alg with
  | ok token =>
    have hvw := verifyWithRetry_first_ok h w key alg token hfst
    have hout := parseToken_verify_ok h w kh kid key alg token 0
      [(key, alg)] hkh htype hkid hkey halg hvw
    rw [hout]
    exact ⟨⟨fun hone => absurd hone (by simp),
      fun hcond => Except.noConfusion hcond.2⟩, by simp⟩
  | error e =>
    by_cases hdis : h.disableKeyID = true
    · by_cases hse : e = errSignatureVerificationMsg
      · subst hse
        have hvw := verifyWithRetry_sig_failure_unkeyed h w key alg hdis halg hfst
        cases hr : w.refreshKeyResult with
        | error e2 =>
          simp only [hr] at hvw
          have hout := parseToken_verify_error h w kh kid key alg e2 1
            [(key, alg)] hkh htype hkid hkey halg hvw
          rw [hout]
          exact ⟨⟨fun _ => ⟨hdis, rfl⟩, fun _ => rfl⟩, by simp⟩
        | ok k2 =>
          simp only [hr] at hvw
          cases hretry : getAndValidateTokenFromString w k2 alg with
          | error e4 =>
            simp only [hretry] at hvw
            have hout := parseToken_verify_error h w kh kid key alg e4 1
              [(key, alg), (k2, alg)] hkh htype hkid hkey halg hvw
            rw [hout]
            exact ⟨⟨fun _ => ⟨hdis, rfl⟩, fun _ => rfl⟩, by simp⟩
          | ok token =>
            simp only [hretry] at hvw
            have hout := parseToken_verify_ok h w kh kid key alg token 1
              [(key, alg), (k2, alg)] hkh htype hkid hkey halg hvw
            rw [hout]
            exact ⟨⟨fun _ => ⟨hdis, rfl⟩, fun _ => rfl⟩, by simp⟩
      · have hvw := verifyWithRetry_not_sentinel h w key alg e hse hfst
        have hout := parseToken_verify_error h w kh kid key alg e 0
          [(key, alg)] hkh htype hkid hkey halg hvw
        rw [hout]
        exact ⟨⟨fun hone => absurd hone (by simp),
          fun hcond => absurd (Except.error.inj hcond.2) hse⟩, by simp⟩
    · have hdisf : h.disableKeyID = false := by
        cases hb : h.disableKeyID
        · rfl
        · exact absurd hb hdis
      have hvw := verifyWithRetry_sig_failure_keyed h w key alg e hdisf hfst
      have hout := parseToken_verify_error h w kh kid key alg e 0
        [(key, alg)] hkh htype hkid hkey halg hvw
      rw [hout]
      exact ⟨⟨fun hone => absurd hone (by simp),
        fun hcond => absurd hcond.1 hdis⟩, by simp⟩

/-- Witness for C10: in the concrete unkeyed world whose verification
error carries the sentinel text, a refresh is triggered. -/
theorem parse_token_refresh_sentinel_trigger_witness :
    (parseToken exHandlerUnkeyed exWorldFail).refreshCalls = 1 := by
  have hmain := parse_token_refresh_sentinel_trigger exHandlerUnkeyed
    exWorldFail 0 "" exKeyOld "RS256" rfl rfl rfl rfl (by rfl)
  exact hmain.2.1.mpr ⟨rfl, by rfl⟩

lemma loadJwks_shape (h : Handler) (w : World) :
    ∃ u kh2, (loadJwks h w).1 = { h with jwksUri := u, keyHandler := kh2 } := by
  obtain ⟨i, d, u0, ft, rl, fb, dr, ra, rt, rc, dk, hc, kh0⟩ := h
  cases hk : w.newKeyHandlerResult with
  | error e =>
    by_cases huri : u0 = ""
    · subst huri
      cases hd : w.discoveredJwksUri with
      | error e2 => exact ⟨"", kh0, by simp [loadJwks, hd]⟩
      | ok u => exact ⟨u, kh0, by simp [loadJwks, hd, loadJwksStep2, hk]⟩
    · exact ⟨u0, kh0, by simp [loadJwks, huri, loadJwksStep2, hk]⟩
  | ok khId =>
    by_cases huri : u0 = ""
    · subst huri
      cases hd : w.discoveredJwksUri with
      | error e2 => exact ⟨"", kh0, by simp [loadJwks, hd]⟩
      | ok u => exact ⟨u, some khId, by simp [loadJwks, hd, loadJwksStep2, hk]⟩
    · exact ⟨u0, some khId, by simp [loadJwks, huri, loadJwksStep2, hk]⟩

lemma parseToken_handler_shape (h : Handler) (w : World) :
    (parseToken h w).handler = h ∨
    (h.keyHandler = none ∧ (parseToken h w).handler = (loadJwks h w).1) := by
  rw [parseToken]
  cases hkh : h.keyHandler with
  | some kh =>
    left
    rcases hpl : parseTokenLoaded h w with ⟨r, n, c⟩
    simp [hpl]
  | none =>
    right
    refine ⟨rfl, ?_⟩
    rcases hl : loadJwks h w with ⟨h2, res⟩
    cases res with
    | error e => simp [hl]
    | ok u =>
      rcases hpl : parseTokenLoaded h2 w with ⟨r, n, c⟩
      simp [hl, hpl]

/-- C9: `ParseToken` never changes any policy field of the handler —
issuer, discovery URI, fetch timeout, rate limit, fallback algorithm,
drift, audience, token type, required claims, `disableKeyID`, HTTP
client — and whenever a key manager is already installed the handler is
completely untouched; only the lazy-load path (no key manager yet) may
install the manager and the derived JWKS URI. -/
theorem parse_token_frame (h : Handler) (w : World) :
    (parseToken h w).handler.issuer = h.issuer ∧
    (parseToken h w).handler.discoveryUri = h.discoveryUri ∧
    (parseToken h w).handler.jwksFetchTimeout = h.jwksFetchTimeout ∧
    (parseToken h w).handler.jwksRateLimit = h.jwksRateLimit ∧
    (parseToken h w).handler.fallbackSignatureAlgorithm =
      h.fallbackSignatureAlgorithm ∧
    (parseToken h w).handler.allowedTokenDrift = h.allowedTokenDrift ∧
    (parseToken h w).handler.requiredAudience = h.requiredAudience ∧
    (parseToken h w).handler.requiredTokenType = h.requiredTokenType ∧
    (parseToken h w).handler.requiredClaims = h.requiredClaims ∧
    (parseToken h w).handler.disableKeyID = h.disableKeyID ∧
    (parseToken h w).handler.httpClient = h.httpClient ∧
    (h.keyHandler = none ∨ (parseToken h w).handler = h) := by
  rcases parseToken_handler_shape h w with heq | ⟨hnone, heq⟩
  · rw [heq]
    exact ⟨rfl, rfl, rfl, rfl, rfl, rfl, rfl, rfl, rfl, rfl, rfl, Or.inr rfl⟩
  · rw [heq]
    obtain ⟨u, kh2, hl⟩ := loadJwks_shape h w
    rw [hl]
    exact ⟨rfl, rfl, rfl, rfl, rfl, rfl, rfl, rfl, rfl, rfl, rfl, Or.inl hnone⟩

lemma foldl_enqueueWait (ids : List Nat) (s : KeyManagerState) :
    ids.foldl enqueueWait s = { s with pending := s.pending ++ ids } := by
  induction ids generalizing s with
  | nil => simp
  | cons i rest ih =>
    rw [List.foldl_cons, ih]
    simp [enqueueWait]

/-- C3: N ≥ 1 forced-refresh requests all enqueued before the refresher
starts form a single batch: one refresher round performs exactly one
fetch, increments the update count by exactly one, installs the fetched
key set, and attaches that same new key set to every one of the N
callers. -/
theorem concurrent_refresh_coalesces (s : KeyManagerState) (ids : List Nat)
    (ks : List Key)
    (hpend : s.pending = [])
    (_hn : 1 ≤ ids.length)
    (hinv : s.disableKeyID = true → ks.length = 1) :
    (refresherStep (ids.foldl enqueueWait s) (.ok ks)).keyUpdateCount =
      s.keyUpdateCount + 1 ∧
    (refresherStep (ids.foldl enqueueWait s) (.ok ks)).fetchCount =
      s.fetchCount + 1 ∧
    (refresherStep (ids.foldl enqueueWait s) (.ok ks)).keySet = ks ∧
    (refresherStep (ids.foldl enqueueWait s) (.ok ks)).responses =
      s.responses ++ ids.map (fun id => (id, Except.ok ks)) := by
  rw [foldl_enqueueWait, hpend]
  have hcond : (s.disableKeyID && (ks.length != 1)) = false := by
    cases hd : s.disableKeyID
    · rfl
    · simp [hinv hd]
  simp [refresherStep, refreshInstall, hcond]

/-- Witness for C3 with three concurrent callers. -/
theorem concurrent_refresh_coalesces_witness :
    (refresherStep ([1, 2, 3].foldl enqueueWait
        ⟨[exKeyOld], 1, 1, false, [], []⟩) (.ok [exKeyNew])).keyUpdateCount
      = 2 ∧
    (refresherStep ([1, 2, 3].foldl enqueueWait
        ⟨[exKeyOld], 1, 1, false, [], []⟩) (.ok [exKeyNew])).fetchCount = 2 ∧
    (refresherStep ([1, 2, 3].foldl enqueueWait
        ⟨[exKeyOld], 1, 1, false, [], []⟩) (.ok [exKeyNew])).keySet =
      [exKeyNew] ∧
    (refresherStep ([1, 2, 3].foldl enqueueWait
        ⟨[exKeyOld], 1, 1, false, [], []⟩) (.ok [exKeyNew])).responses =
      [(1, Except.ok [exKeyNew]), (2, Except.ok [exKeyNew]),
        (3, Except.ok [exKeyNew])] :=
  concurrent_refresh_coalesces ⟨[exKeyOld], 1, 1, false, [], []⟩ [1, 2, 3]
    [exKeyNew] rfl (by simp) (fun hd => by simp)

/-- C4: in unkeyed mode a refresh whose fetched JWKS holds more than one
key is rejected: the refresh returns an error, the previously installed
single-key key set stays installed, the update count is unchanged, and
every waiting caller receives the error. -/
theorem unkeyed_multikey_refresh_rejected (s : KeyManagerState) (ks : List Key)
    (hdis : s.disableKeyID = true)
    (hsingle : s.keySet.length = 1)
    (hmulti : 1 < ks.length) :
    (refreshInstall s (.ok ks)).1 = s ∧
    (refreshInstall s (.ok ks)).2 =
      .error "keyHandler received more than one key" ∧
    (refresherStep s (.ok ks)).keySet = s.keySet ∧
    (refresherStep s (.ok ks)).keySet.length = 1 ∧
    (refresherStep s (.ok ks)).keyUpdateCount = s.keyUpdateCount ∧
    (refresherStep s (.ok ks)).responses =
      s.responses ++ s.pending.map
        (fun id => (id, Except.error "keyHandler received more than one key")) := by
  have hne : ks.length ≠ 1 := by omega
  have hcond : (s.disableKeyID && (ks.length != 1)) = true := by
    simp [hdis, hne]
  simp [refreshInstall, refresherStep, hcond, hsingle]

/-- Witness for C4: a two-key fetch against a one-key unkeyed manager
with one waiting caller. -/
theorem unkeyed_multikey_refresh_rejected_witness :
    (refreshInstall ⟨[exKeyOld], 1, 1, true, [7], []⟩
        (.ok [exKeyOld, exKeyNew])).1 = ⟨[exKeyOld], 1, 1, true, [7], []⟩ ∧
    (refreshInstall ⟨[exKeyOld], 1, 1, true, [7], []⟩
        (.ok [exKeyOld, exKeyNew])).2 =
      .error "keyHandler received more than one key" ∧
    (refresherStep ⟨[exKeyOld], 1, 1, true, [7], []⟩
        (.ok [exKeyOld, exKeyNew])).keySet = [exKeyOld] ∧
    (refresherStep ⟨[exKeyOld], 1, 1, true, [7], []⟩
        (.ok [exKeyOld, exKeyNew])).keyUpdateCount = 1 ∧
    (refresherStep ⟨[exKeyOld], 1, 1, true, [7], []⟩
        (.ok [exKeyOld, exKeyNew])).responses =
      [(7, Except.error "keyHandler received more than one key")] := by
  have hmain := unkeyed_multikey_refresh_rejected
    ⟨[exKeyOld], 1, 1, true, [7], []⟩ [exKeyOld, exKeyNew] rfl rfl (by simp)
  exact ⟨hmain.1, hmain.2.1, hmain.2.2.1, hmain.2.2.2.2.1, hmain.2.2.2.2.2⟩

end Oidc
